import Mathlib

/-!
# Verification of the grid-tile layout sizing calculator (`TileStyler` family)

Shallow embedding of `src/src/app/material/esm2015/core/line/line.js`
(the `TileStyler`, `FixedTileStyler`, `RatioTileStyler`, `FitTileStyler`
classes and their helpers `calc`, `normalizeUnits`, `cssCalcAllowedValue`).

Modelling conventions:
* JavaScript numbers are modelled by `JsNum`: an exact rational (`Rat`) in
  the finite case, plus `Infinity`, `-Infinity` and `NaN`.  Finite
  arithmetic is exact rational arithmetic (the source's arithmetic is
  IEEE-754 double arithmetic; all claims below are stated either about
  integer-valued computations, where the two agree exactly, or about the
  exact arithmetic the spec describes).  Division by zero follows the
  JavaScript rules (`100/0 = Infinity`, `-1/0 = -Infinity`, `0/0 = NaN`).
* JavaScript template interpolation of a number is `jsNumToString`; it
  agrees with JavaScript on integers, `Infinity`, `-Infinity` and `NaN`
  (non-integer rationals are printed as `num/den`, where JavaScript would
  print a decimal expansion of the rounded double).
* A JavaScript field that may be `undefined` is modelled with `Option`;
  interpolating it into a template string goes through `jsStr`, which
  renders `none` as the literal text `"undefined"`, as JavaScript does.
* A method that can `throw` is modelled with `Except String`.
* DOM style mutation (`tile._setStyle`, `list._setListStyle`) is modelled
  by returning the ordered list of `(property, value)` assignments the
  method performs; a `null` value (clearing the property) is `none`.
-/

/-! ## Character classes and `normalizeUnits` -/

/-- Decimal digit, the regex class `\d`. -/
def isDigitChar (c : Char) : Bool :=
  '0' ≤ c && c ≤ '9'

/-- The regex class `[A-Za-z%]` used by `normalizeUnits`'s regex
`/([A-Za-z%]+)$/`. -/
def isUnitEndChar (c : Char) : Bool :=
  ('A' ≤ c && c ≤ 'Z') || ('a' ≤ c && c ≤ 'z') || c == '%'

/-- The regex class `[A-Za-z%$]` used inside `cssCalcAllowedValue`. -/
def isCalcSuffixChar (c : Char) : Bool :=
  ('A' ≤ c && c ≤ 'Z') || ('a' ≤ c && c ≤ 'z') || c == '%' || c == '$'

/-- `value.match(/([A-Za-z%]+)$/)` succeeds iff the string ends in a
character of the class `[A-Za-z%]`. -/
def endsWithUnit (value : String) : Bool :=
  match value.data.getLast? with
  | some c => isUnitEndChar c
  | none => false

/-- Source `normalizeUnits`: appends `px` to a CSS string if no units are
given (`value.match(/([A-Za-z%]+)$/) ? value : value + "px"`). -/
def normalizeUnits (value : String) : String :=
  if endsWithUnit value then value else value ++ "px"

/-! ## The `cssCalcAllowedValue` regex

The source regex is `/^-?\d+((\.\d+)?[A-Za-z%$]?)+$/`.  Since both parts
of the repeated group are optional, the language it accepts is: an
optional minus sign, one or more digits, then any (possibly empty)
sequence of blocks, each block being either `.` followed by one or more
digits, or a single character of `[A-Za-z%$]`.  We recognise the tail
with a three-state automaton folded over the characters. -/

/-- State of the tail automaton for `cssCalcAllowedValue`:
`block` = at a block boundary, `afterDot` = just consumed a `.` and a
digit is required, `inFrac` = inside the digits of a `.digits` block. -/
inductive CalcTailState
  | block
  | afterDot
  | inFrac
deriving DecidableEq, Repr

/-- One step of the tail automaton; `none` is the reject state. -/
def calcTailStep (st : Option CalcTailState) (c : Char) : Option CalcTailState :=
  match st with
  | none => none
  | some .block =>
      if c == '.' then some .afterDot
      else if isCalcSuffixChar c then some .block
      else none
  | some .afterDot =>
      if isDigitChar c then some .inFrac else none
  | some .inFrac =>
      if isDigitChar c then some .inFrac
      else if c == '.' then some .afterDot
      else if isCalcSuffixChar c then some .block
      else none

/-- Whether the tail automaton accepts: a block must be complete. -/
def calcTailAccept : Option CalcTailState → Bool
  | some .block => true
  | some .inFrac => true
  | _ => false

/-- Matches `((\.\d+)?[A-Za-z%$]?)+$` against the remaining characters. -/
def calcTailMatch (l : List Char) : Bool :=
  calcTailAccept (l.foldl calcTailStep (some .block))

/-- Matches `\d+((\.\d+)?[A-Za-z%$]?)+$`: one or more leading digits, then
the tail blocks. -/
def calcDigitsMatch (l : List Char) : Bool :=
  !(l.takeWhile isDigitChar).isEmpty && calcTailMatch (l.dropWhile isDigitChar)

/-- Source constant `cssCalcAllowedValue`: the test
`/^-?\d+((\.\d+)?[A-Za-z%$]?)+$/.test(value)`. -/
def cssCalcAllowedValue (value : String) : Bool :=
  match value.data with
  | '-' :: rest => calcDigitsMatch rest
  | l => calcDigitsMatch l

/-! ## JavaScript numbers -/

/-- A JavaScript number: an exact rational, `Infinity`, `-Infinity`, or
`NaN`.  Finite arithmetic is exact where the source would round. -/
inductive JsNum
  | num (q : ℚ)
  | posInf
  | negInf
  | nan
deriving DecidableEq, Repr

namespace JsNum

/-- JavaScript unary minus. -/
def neg : JsNum → JsNum
  | num q => num (-q)
  | posInf => negInf
  | negInf => posInf
  | nan => nan

/-- JavaScript addition (`Infinity + -Infinity = NaN`, `NaN` propagates). -/
def add : JsNum → JsNum → JsNum
  | num a, num b => num (a + b)
  | nan, _ => nan
  | _, nan => nan
  | posInf, negInf => nan
  | negInf, posInf => nan
  | posInf, _ => posInf
  | _, posInf => posInf
  | negInf, _ => negInf
  | _, negInf => negInf

/-- JavaScript subtraction, `a - b = a + (-b)`. -/
def sub (a b : JsNum) : JsNum := a.add b.neg

/-- JavaScript multiplication (`0 * Infinity = NaN`, signs as usual). -/
def mul : JsNum → JsNum → JsNum
  | num a, num b => num (a * b)
  | nan, _ => nan
  | _, nan => nan
  | posInf, posInf => posInf
  | posInf, negInf => negInf
  | negInf, posInf => negInf
  | negInf, negInf => posInf
  | posInf, num b => if b > 0 then posInf else if b < 0 then negInf else nan
  | num a, posInf => if a > 0 then posInf else if a < 0 then negInf else nan
  | negInf, num b => if b > 0 then negInf else if b < 0 then posInf else nan
  | num a, negInf => if a > 0 then negInf else if a < 0 then posInf else nan

/-- JavaScript division: `a / 0` is `±Infinity` for nonzero finite `a` and
`NaN` for `a = 0`; finite division is exact rational division here. -/
def div : JsNum → JsNum → JsNum
  | num a, num b =>
      if b = 0 then
        if a > 0 then posInf else if a < 0 then negInf else nan
      else num (a / b)
  | nan, _ => nan
  | _, nan => nan
  | posInf, posInf => nan
  | posInf, negInf => nan
  | negInf, posInf => nan
  | negInf, negInf => nan
  | posInf, num b => if b < 0 then negInf else posInf
  | negInf, num b => if b < 0 then posInf else negInf
  | num _, posInf => num 0
  | num _, negInf => num 0

end JsNum

/-- JavaScript template interpolation `${n}` of a number.  Agrees with
JavaScript for integers and the non-finite values; a non-integer rational
is printed as `num/den` (JavaScript would print the decimal expansion of
the rounded double). -/
def jsNumToString : JsNum → String
  | .num q => if q.den = 1 then toString q.num else toString q.num ++ "/" ++ toString q.den
  | .posInf => "Infinity"
  | .negInf => "-Infinity"
  | .nan => "NaN"

/-- JavaScript template interpolation of a possibly-`undefined` string
field: `undefined` renders as the literal text `undefined`. -/
def jsStr : Option String → String
  | some s => s
  | none => "undefined"

/-! ## `parseFloat`

Modelled from the JavaScript builtin used by `RatioTileStyler._parseRatio`:
skip leading whitespace, an optional sign, then the longest prefix that is
`Infinity` or a decimal literal (digits, optional `.digits` fraction,
optional exponent); trailing garbage is ignored; `NaN` if no prefix
parses. -/

/-- Whitespace skipped by `parseFloat`. -/
def isJsSpace (c : Char) : Bool :=
  c == ' ' || c == '\t' || c == '\n' || c == '\r'

/-- Value of a digit list read as a natural number (most significant
first); used to assemble `parseFloat`'s result. -/
def digitsToNat (l : List Char) : ℕ :=
  l.foldl (fun n c => 10 * n + (c.toNat - '0'.toNat)) 0

/-- Parses `digits ( '.' digits* )?` and an optional exponent from the
front of `l`, returning the value; `none` when there is no leading digit
and no `.digit` start.  Helper for `parseFloatChars`. -/
def parseDecimal (l : List Char) : Option ℚ :=
  let intDigits := l.takeWhile isDigitChar
  let r1 := l.dropWhile isDigitChar
  let (fracDigits, r2) :=
    match r1 with
    | '.' :: rest => (rest.takeWhile isDigitChar, rest.dropWhile isDigitChar)
    | _ => ([], r1)
  if intDigits.isEmpty && fracDigits.isEmpty then none
  else
    let mantissa : ℚ :=
      (digitsToNat intDigits : ℚ) +
        (digitsToNat fracDigits : ℚ) / ((10 : ℚ) ^ fracDigits.length)
    let expPart : ℤ :=
      match r2 with
      | 'e' :: rest | 'E' :: rest =>
          let (sgn, rest') :=
            match rest with
            | '-' :: t => ((-1 : ℤ), t)
            | '+' :: t => ((1 : ℤ), t)
            | t => ((1 : ℤ), t)
          let eds := rest'.takeWhile isDigitChar
          if eds.isEmpty then 0 else sgn * (digitsToNat eds : ℤ)
      | _ => 0
    some (mantissa * (10 : ℚ) ^ expPart)

/-- `parseFloat` over a character list: sign, `Infinity`, or decimal. -/
def parseFloatChars (l : List Char) : JsNum :=
  let l := l.dropWhile isJsSpace
  let (sgn, l') :=
    match l with
    | '-' :: t => (false, t)
    | '+' :: t => (true, t)
    | t => (true, t)
  if ("Infinity".data).isPrefixOf l' then
    if sgn then JsNum.posInf else JsNum.negInf
  else
    match parseDecimal l' with
    | some q => JsNum.num (if sgn then q else -q)
    | none => JsNum.nan

/-- The JavaScript builtin `parseFloat`. -/
def parseFloat (s : String) : JsNum :=
  parseFloatChars s.data

/-- Helper for `jsSplit`: walks the characters, accumulating the current
part in reverse. -/
def jsSplitAux (sep : Char) : List Char → List Char → List String
  | [], acc => [String.mk acc.reverse]
  | c :: cs, acc =>
      if c == sep then String.mk acc.reverse :: jsSplitAux sep cs []
      else jsSplitAux sep cs (c :: acc)

/-- The JavaScript `String.prototype.split` with a single-character
separator, as used by `value.split(':')`: splits at every occurrence of
the separator; `"".split(':')` is `[""]`. -/
def jsSplit (sep : Char) (s : String) : List String :=
  jsSplitAux sep s.data []

/-! ## Sanity examples (construction of the embedding) -/

example : normalizeUnits "100" = "100px" := by decide
example : normalizeUnits "4px" = "4px" := by decide
example : cssCalcAllowedValue "100px" = true := by decide
example : cssCalcAllowedValue "100!!px" = false := by decide
example : cssCalcAllowedValue "-56.5em" = true := by decide
unseal Rat.mul Rat.add Rat.sub Rat.inv in
example : parseFloat "3" = JsNum.num 3 := by decide
example : parseFloat "x" = JsNum.nan := by decide
unseal Rat.mul Rat.add Rat.sub Rat.inv in
example : parseFloat "2.5" = JsNum.num (5/2) := by decide
example : JsNum.div (.num 100) (.num 0) = JsNum.posInf := by decide
example : JsNum.div (.num 0) (.num 0) = JsNum.nan := by decide
unseal Rat.mul Rat.add Rat.sub Rat.inv in
example : jsNumToString (.num (100/3)) = "100/3" := by decide

/-! ## The `TileStyler` base state and shared methods -/

/-- The part of the `TileCoordinator` collaborator read by
`TileStyler.init`: `tracker.rowCount` and `tracker.rowspan`. -/
structure TileCoordinator where
  rowCount : ℚ
  rowspan : ℚ
deriving DecidableEq, Repr

/-- The mutable fields of the abstract `TileStyler` base class, as they
stand after `init` has run. -/
structure TileStyler where
  _gutterSize : String
  _rows : ℚ
  _rowspan : ℚ
  _cols : ℚ
  _direction : String
deriving DecidableEq, Repr

/-- The per-tile inputs read from a `MatGridTile`: `tile.rowspan` and
`tile.colspan`. -/
structure Tile where
  rowspan : ℚ
  colspan : ℚ
deriving DecidableEq, Repr

/-- Source helper `calc`: wraps a CSS string in a calc function. -/
def «calc» (exp : String) : String :=
  "calc(" ++ exp ++ ")"

namespace TileStyler

/-- `TileStyler.init`: stores the normalized gutter size and the grid
dimensions. -/
def init (gutterSize : String) (tracker : TileCoordinator) (cols : ℚ)
    (direction : String) : TileStyler :=
  { _gutterSize := normalizeUnits gutterSize
    _rows := tracker.rowCount
    _rowspan := tracker.rowspan
    _cols := cols
    _direction := direction }

/-- `TileStyler.getBaseTileSize`: the template
`(${sizePercent}% - (${this._gutterSize} * ${gutterFraction}))`. -/
def getBaseTileSize (s : TileStyler) (sizePercent gutterFraction : JsNum) : String :=
  "(" ++ jsNumToString sizePercent ++ "% - (" ++ s._gutterSize ++ " * " ++
    jsNumToString gutterFraction ++ "))"

/-- `TileStyler.getTilePosition`:
`offset === 0 ? '0' : calc((${baseSize} + ${this._gutterSize}) * ${offset})`. -/
def getTilePosition (s : TileStyler) (baseSize : String) (offset : ℚ) : String :=
  if offset = 0 then "0"
  else «calc» ("(" ++ baseSize ++ " + " ++ s._gutterSize ++ ") * " ++
    jsNumToString (.num offset))

/-- `TileStyler.getTileSize`: the template
`(${baseSize} * ${span}) + (${span - 1} * ${this._gutterSize})`. -/
def getTileSize (s : TileStyler) (baseSize : String) (span : ℚ) : String :=
  "(" ++ baseSize ++ " * " ++ jsNumToString (.num span) ++ ") + (" ++
    jsNumToString (.num (span - 1)) ++ " * " ++ s._gutterSize ++ ")"

/-- The `percentWidthPerTile` local of `TileStyler.setStyle`:
`100 / this._cols`. -/
def percentWidthPerTile (cols : ℚ) : JsNum :=
  (JsNum.num 100).div (.num cols)

/-- The `gutterWidthFractionPerTile` local of `TileStyler.setStyle`:
`(this._cols - 1) / this._cols`. -/
def gutterWidthFractionPerTile (cols : ℚ) : JsNum :=
  (JsNum.num (cols - 1)).div (.num cols)

/-- `TileStyler.setColStyles`: emits the horizontal position (`left` or
`right` per layout direction) and the `width` of the tile, in order. -/
def setColStyles (s : TileStyler) (tile : Tile) (colIndex : ℚ)
    (percentWidth gutterWidth : JsNum) : List (String × String) :=
  let baseTileWidth := s.getBaseTileSize percentWidth gutterWidth
  let side := if s._direction = "rtl" then "right" else "left"
  [(side, s.getTilePosition baseTileWidth colIndex),
   ("width", «calc» (s.getTileSize baseTileWidth tile.colspan))]

/-- `TileStyler.getGutterSpan`: `${this._gutterSize} * (${this._rowspan} - 1)`. -/
def getGutterSpan (s : TileStyler) : String :=
  s._gutterSize ++ " * (" ++ jsNumToString (.num s._rowspan) ++ " - 1)"

/-- `TileStyler.getTileSpan`:
`${this._rowspan} * ${this.getTileSize(tileHeight, 1)}`. -/
def getTileSpan (s : TileStyler) (tileHeight : String) : String :=
  jsNumToString (.num s._rowspan) ++ " * " ++ s.getTileSize tileHeight 1

end TileStyler

/-! ## Style targets and `reset` effects -/

/-- The `TileStyleTarget` grid container: `_tiles` is the query list of
registered tiles, which can be `undefined` before view init (`none`). -/
structure TileStyleTarget where
  _tiles : Option (List Tile)

/-- The DOM effects of a `reset` call: the `(property, value)` assignments
made on the container (via `_setListStyle`) and, per registered tile in
order, on the tiles (via `_setStyle`); `none` clears a property. -/
structure ResetEffects where
  listStyles : List (String × Option String)
  tileStyles : List (List (String × Option String))
deriving DecidableEq, Repr

/-! ## `FixedTileStyler` -/

namespace FixedTileStyler

/-- `new FixedTileStyler(fixedRowHeight)` followed by `init(...)`:
`super.init`, then `this.fixedRowHeight = normalizeUnits(this.fixedRowHeight)`
and the `cssCalcAllowedValue` test, throwing
`Invalid value "..." set as rowHeight.` when it fails.  Returns the base
state together with the normalized stored `fixedRowHeight`. -/
def init (fixedRowHeight gutterSize : String) (tracker : TileCoordinator)
    (cols : ℚ) (direction : String) : Except String (TileStyler × String) :=
  let base := TileStyler.init gutterSize tracker cols direction
  let fixed := normalizeUnits fixedRowHeight
  if cssCalcAllowedValue fixed then
    .ok (base, fixed)
  else
    .error ("Invalid value \"" ++ fixed ++ "\" set as rowHeight.")

/-- `FixedTileStyler.setRowStyles`: sets `top` and `height`. -/
def setRowStyles (s : TileStyler) (fixedRowHeight : String) (tile : Tile)
    (rowIndex : ℚ) : List (String × String) :=
  [("top", s.getTilePosition fixedRowHeight rowIndex),
   ("height", «calc» (s.getTileSize fixedRowHeight tile.rowspan))]

/-- `FixedTileStyler.getComputedHeight`:
`['height', calc(`${this.getTileSpan(this.fixedRowHeight)} + ${this.getGutterSpan()}`)]`. -/
def getComputedHeight (s : TileStyler) (fixedRowHeight : String) : String × String :=
  ("height", «calc» (s.getTileSpan fixedRowHeight ++ " + " ++ s.getGutterSpan))

/-- `FixedTileStyler.reset`: clears `height` on the container, then, if
`_tiles` is present, clears `top` and `height` on every tile. -/
def reset (list : TileStyleTarget) : ResetEffects :=
  { listStyles := [("height", none)]
    tileStyles :=
      match list._tiles with
      | some tiles => tiles.map (fun _ => [("top", none), ("height", none)])
      | none => [] }

end FixedTileStyler

/-! ## `RatioTileStyler` -/

namespace RatioTileStyler

/-- `RatioTileStyler._parseRatio` (run by the constructor): splits the
value on `:`, throws unless there are exactly two parts, and otherwise
stores `parseFloat(ratioParts[0]) / parseFloat(ratioParts[1])`.  The
numeric content of the parts is never checked. -/
def _parseRatio (value : String) : Except String JsNum :=
  let ratioParts := jsSplit ':' value
  if ratioParts.length ≠ 2 then
    .error ("mat-grid-list: invalid ratio given for row-height: \"" ++ value ++ "\"")
  else
    .ok ((parseFloat (ratioParts.getD 0 "")).div (parseFloat (ratioParts.getD 1 "")))

/-- The `percentHeightPerTile` local of `RatioTileStyler.setRowStyles`:
`percentWidth / this.rowHeightRatio`. -/
def percentHeightPerTile (percentWidth rowHeightRatio : JsNum) : JsNum :=
  percentWidth.div rowHeightRatio

/-- `RatioTileStyler.setRowStyles`: computes the per-row percent height,
stores `this.baseTileHeight` (returned first), and sets `marginTop` and
`paddingTop` on the tile. -/
def setRowStyles (s : TileStyler) (rowHeightRatio : JsNum) (tile : Tile)
    (rowIndex : ℚ) (percentWidth gutterWidth : JsNum) :
    String × List (String × String) :=
  let pht := percentHeightPerTile percentWidth rowHeightRatio
  let baseTileHeight := s.getBaseTileSize pht gutterWidth
  (baseTileHeight,
   [("marginTop", s.getTilePosition baseTileHeight rowIndex),
    ("paddingTop", «calc» (s.getTileSize baseTileHeight tile.rowspan))])

/-- `RatioTileStyler.getComputedHeight`: reads `this.baseTileHeight`,
which is `undefined` (`none`) until the first `setRowStyles` call and is
then interpolated as the literal text `undefined`. -/
def getComputedHeight (s : TileStyler) (baseTileHeight : Option String) :
    String × String :=
  ("paddingBottom",
   «calc» (s.getTileSpan (jsStr baseTileHeight) ++ " + " ++ s.getGutterSpan))

/-- `RatioTileStyler.reset`: clears `paddingBottom` on the container, then
iterates `list._tiles` without a guard — when `_tiles` is `undefined` the
`forEach` throws a `TypeError` (the claims only exercise the present-but-
empty case). -/
def reset (list : TileStyleTarget) : Except String ResetEffects :=
  match list._tiles with
  | none => .error "TypeError: Cannot read properties of undefined"
  | some tiles =>
      .ok { listStyles := [("paddingBottom", none)]
            tileStyles := tiles.map (fun _ => [("marginTop", none), ("paddingTop", none)]) }

end RatioTileStyler

/-! ## `FitTileStyler` -/

namespace FitTileStyler

/-- `FitTileStyler.setRowStyles`: `100 / this._rowspan` percent per row,
gutter fraction `(this._rows - 1) / this._rows`, then `top` and `height`.
There is no guard on `_rowspan` or `_rows` being zero. -/
def setRowStyles (s : TileStyler) (tile : Tile) (rowIndex : ℚ) :
    List (String × String) :=
  let percentHeightPerTile := (JsNum.num 100).div (.num s._rowspan)
  let gutterHeightPerTile := (JsNum.num (s._rows - 1)).div (.num s._rows)
  let baseTileHeight := s.getBaseTileSize percentHeightPerTile gutterHeightPerTile
  [("top", s.getTilePosition baseTileHeight rowIndex),
   ("height", «calc» (s.getTileSize baseTileHeight tile.rowspan))]

/-- `FitTileStyler.reset`: no container-level style is touched; if
`_tiles` is present, clears `top` and `height` on every tile. -/
def reset (list : TileStyleTarget) : ResetEffects :=
  { listStyles := []
    tileStyles :=
      match list._tiles with
      | some tiles => tiles.map (fun _ => [("top", none), ("height", none)])
      | none => [] }

end FitTileStyler

/-! ## The polymorphic styler -/

/-- A sizing policy with its state: the tagged-variant view of the three
`TileStyler` subclasses.  Only `RatioTileStyler` carries extra mutable
state (`rowHeightRatio`, set by the constructor, and `baseTileHeight`,
`undefined` until the first `setRowStyles`). -/
inductive Styler
  | fixed (base : TileStyler) (fixedRowHeight : String)
  | ratio (base : TileStyler) (rowHeightRatio : JsNum) (baseTileHeight : Option String)
  | fit (base : TileStyler)
deriving DecidableEq, Repr

namespace Styler

/-- `new FixedTileStyler(value)` then `init(...)`. -/
def initFixed (fixedRowHeight gutterSize : String) (tracker : TileCoordinator)
    (cols : ℚ) (direction : String) : Except String Styler := do
  let (b, v) ← FixedTileStyler.init fixedRowHeight gutterSize tracker cols direction
  .ok (.fixed b v)

/-- `new RatioTileStyler(value)` (whose constructor parses the ratio and
can throw) then the inherited `init(...)`; `baseTileHeight` is still
unset afterwards. -/
def initRatio (value gutterSize : String) (tracker : TileCoordinator)
    (cols : ℚ) (direction : String) : Except String Styler := do
  let r ← RatioTileStyler._parseRatio value
  .ok (.ratio (TileStyler.init gutterSize tracker cols direction) r none)

/-- `new FitTileStyler()` then the inherited `init(...)`. -/
def initFit (gutterSize : String) (tracker : TileCoordinator) (cols : ℚ)
    (direction : String) : Styler :=
  .fit (TileStyler.init gutterSize tracker cols direction)

/-- `TileStyler.setStyle`: computes `percentWidthPerTile` and
`gutterWidthFractionPerTile`, runs `setColStyles` then the active
policy's `setRowStyles`.  Returns the updated policy and the ordered
list of tile style assignments. -/
def setStyle : Styler → Tile → ℚ → ℚ → Styler × List (String × String)
  | .fixed b v, tile, rowIndex, colIndex =>
      let pw := TileStyler.percentWidthPerTile b._cols
      let gw := TileStyler.gutterWidthFractionPerTile b._cols
      (.fixed b v,
       b.setColStyles tile colIndex pw gw ++
         FixedTileStyler.setRowStyles b v tile rowIndex)
  | .ratio b r _, tile, rowIndex, colIndex =>
      let pw := TileStyler.percentWidthPerTile b._cols
      let gw := TileStyler.gutterWidthFractionPerTile b._cols
      let (bth, rowStyles) := RatioTileStyler.setRowStyles b r tile rowIndex pw gw
      (.ratio b r (some bth),
       b.setColStyles tile colIndex pw gw ++ rowStyles)
  | .fit b, tile, rowIndex, colIndex =>
      let pw := TileStyler.percentWidthPerTile b._cols
      let gw := TileStyler.gutterWidthFractionPerTile b._cols
      (.fit b,
       b.setColStyles tile colIndex pw gw ++
         FitTileStyler.setRowStyles b tile rowIndex)

/-- `getComputedHeight` dispatch: the base implementation returns `null`
(`none`), which only `FitTileStyler` inherits. -/
def getComputedHeight : Styler → Option (String × String)
  | .fixed b v => some (FixedTileStyler.getComputedHeight b v)
  | .ratio b _ bth => some (RatioTileStyler.getComputedHeight b bth)
  | .fit _ => none

/-- `reset` dispatch; only `RatioTileStyler.reset` can throw (on an
`undefined` `_tiles`). -/
def reset : Styler → TileStyleTarget → Except String ResetEffects
  | .fixed _ _, l => .ok (FixedTileStyler.reset l)
  | .ratio _ _ _, l => RatioTileStyler.reset l
  | .fit _, l => .ok (FitTileStyler.reset l)

end Styler

/-! ## Applying style assignments (for the `reset` idempotence claim) -/

/-- A style map: the value currently set for each property (`none` =
absent/unset). -/
def StyleMap := String → Option String

/-- Applying one `(property, value)` assignment to a style map. -/
def applyStyle (m : StyleMap) (a : String × Option String) : StyleMap :=
  fun p => if p = a.1 then a.2 else m p

/-- Applying a list of assignments in order. -/
def applyStyles (l : List (String × Option String)) (m : StyleMap) : StyleMap :=
  l.foldl applyStyle m

/-! ## Semantics of the emitted CSS `calc()` expressions

The styler emits CSS arithmetic as text, to be evaluated by the rendering
engine at paint time.  To state "the emitted expression evaluates to"
claims we give that semantics: a tokenizer and a recursive-descent
evaluator for the `calc()` grammar the styler emits (numbers, `px`
lengths, percentages, `+`, `-`, `*`, parentheses, `calc(...)`).  A value
is either a bare number or a length `pct% of the container width + px`;
type-mismatched arithmetic (as in CSS) and non-finite interpolations
(`Infinity`, `NaN`, `undefined`) make the expression invalid (`none`). -/

/-- ASCII letter, for tokenizing words (`px`, `calc`, `Infinity`, ...). -/
def isAsciiLetter (c : Char) : Bool :=
  ('A' ≤ c && c ≤ 'Z') || ('a' ≤ c && c ≤ 'z')

/-- A token of the emitted CSS expression text. -/
inductive CssTok
  | lparen
  | rparen
  | plus
  | minus
  | star
  | percent
  | num (q : ℚ)
  | word (s : String)
  | bad
deriving DecidableEq, Repr

/-- Reads a numeric literal (digits, then an optional `.digits` fraction
or `/digits` exact-rational fraction as printed by `jsNumToString`) from
the front of the character list. -/
def readNum (l : List Char) : ℚ × List Char :=
  let ds := l.takeWhile isDigitChar
  let r := l.dropWhile isDigitChar
  let n : ℚ := (digitsToNat ds : ℚ)
  match r with
  | '.' :: rest =>
      let fs := rest.takeWhile isDigitChar
      (n + (digitsToNat fs : ℚ) / (10 : ℚ) ^ fs.length, rest.dropWhile isDigitChar)
  | '/' :: rest =>
      let fs := rest.takeWhile isDigitChar
      (n / (digitsToNat fs : ℚ), rest.dropWhile isDigitChar)
  | _ => (n, r)

/-- Fuelled tokenizer (the fuel is the input length; every step consumes
at least one character). -/
def tokenizeFuel : ℕ → List Char → List CssTok
  | 0, _ => []
  | _, [] => []
  | fuel + 1, c :: cs =>
      if c == ' ' then tokenizeFuel fuel cs
      else if c == '(' then .lparen :: tokenizeFuel fuel cs
      else if c == ')' then .rparen :: tokenizeFuel fuel cs
      else if c == '+' then .plus :: tokenizeFuel fuel cs
      else if c == '-' then .minus :: tokenizeFuel fuel cs
      else if c == '*' then .star :: tokenizeFuel fuel cs
      else if c == '%' then .percent :: tokenizeFuel fuel cs
      else if isDigitChar c then
        let (q, rest) := readNum (c :: cs)
        .num q :: tokenizeFuel fuel rest
      else if isAsciiLetter c then
        .word (String.mk ((c :: cs).takeWhile isAsciiLetter)) ::
          tokenizeFuel fuel ((c :: cs).dropWhile isAsciiLetter)
      else .bad :: tokenizeFuel fuel cs

/-- Tokenizes a CSS expression string. -/
def tokenize (s : String) : List CssTok :=
  tokenizeFuel s.data.length s.data

/-- The value of a CSS `calc()` (sub)expression: a bare number, or a
length `pct`% of the container width plus `px` pixels. -/
inductive CssVal
  | num (q : ℚ)
  | len (pct px : ℚ)
deriving DecidableEq, Repr

namespace CssVal

/-- CSS addition: number + number or length + length. -/
def addv : CssVal → CssVal → Option CssVal
  | num a, num b => some (num (a + b))
  | len a b, len c d => some (len (a + c) (b + d))
  | _, _ => none

/-- CSS subtraction: number - number or length - length. -/
def subv : CssVal → CssVal → Option CssVal
  | num a, num b => some (num (a - b))
  | len a b, len c d => some (len (a - c) (b - d))
  | _, _ => none

/-- CSS negation. -/
def negv : CssVal → CssVal
  | num a => num (-a)
  | len a b => len (-a) (-b)

/-- CSS multiplication: at least one side must be a bare number. -/
def mulv : CssVal → CssVal → Option CssVal
  | num a, num b => some (num (a * b))
  | num a, len c d => some (len (a * c) (a * d))
  | len a b, num c => some (len (a * c) (b * c))
  | len _ _, len _ _ => none

/-- CSS division: the divisor must be a nonzero bare number. -/
def divv : CssVal → CssVal → Option CssVal
  | num a, num b => if b = 0 then none else some (num (a / b))
  | len a b, num c => if c = 0 then none else some (len (a / c) (b / c))
  | _, _ => none

/-- The length a CSS value denotes at container width `W` (in pixels):
`pct`% of `W` plus `px`; a bare number denotes no length. -/
def lengthAt : CssVal → ℚ → Option ℚ
  | num _, _ => none
  | len pct px, W => some (pct / 100 * W + px)

end CssVal

/-- Mode of the recursive-descent evaluator: sums (`expr`), products
(`term`), atoms (`factor`), and their left-recursive continuations. -/
inductive ParseMode
  | expr
  | exprRest (v : CssVal)
  | term
  | termRest (v : CssVal)
  | factor

/-- Fuelled recursive-descent evaluator over the token list.  Grammar:
`expr := term ((+|-) term)*`, `term := factor (* factor)*`,
`factor := - factor | ( expr ) | calc( expr ) | number [% | px]`.
Unknown words (`Infinity`, `NaN`, `undefined`, unknown units) and stray
characters make the expression invalid. -/
def parseCss : ℕ → ParseMode → List CssTok → Option (CssVal × List CssTok)
  | 0, _, _ => none
  | fuel + 1, .expr, ts => do
      let (v, ts1) ← parseCss fuel .term ts
      parseCss fuel (.exprRest v) ts1
  | fuel + 1, .exprRest v, .plus :: ts => do
      let (w, ts1) ← parseCss fuel .term ts
      let u ← v.addv w
      parseCss fuel (.exprRest u) ts1
  | fuel + 1, .exprRest v, .minus :: ts => do
      let (w, ts1) ← parseCss fuel .term ts
      let u ← v.subv w
      parseCss fuel (.exprRest u) ts1
  | _ + 1, .exprRest v, ts => some (v, ts)
  | fuel + 1, .term, ts => do
      let (v, ts1) ← parseCss fuel .factor ts
      parseCss fuel (.termRest v) ts1
  | fuel + 1, .termRest v, .star :: ts => do
      let (w, ts1) ← parseCss fuel .factor ts
      let u ← v.mulv w
      parseCss fuel (.termRest u) ts1
  | _ + 1, .termRest v, ts => some (v, ts)
  | fuel + 1, .factor, .minus :: ts => do
      let (v, ts1) ← parseCss fuel .factor ts
      some (v.negv, ts1)
  | _ + 1, .factor, .num q :: .percent :: ts => some (.len q 0, ts)
  | _ + 1, .factor, .num q :: .word u :: ts =>
      if u = "px" then some (.len 0 q, ts) else none
  | _ + 1, .factor, .num q :: ts => some (.num q, ts)
  | fuel + 1, .factor, .lparen :: ts => do
      let (v, ts1) ← parseCss fuel .expr ts
      match ts1 with
      | .rparen :: ts2 => some (v, ts2)
      | _ => none
  | fuel + 1, .factor, .word w :: .lparen :: ts =>
      if w = "calc" then do
        let (v, ts1) ← parseCss fuel .expr ts
        match ts1 with
        | .rparen :: ts2 => some (v, ts2)
        | _ => none
      else none
  | _, .factor, _ => none

/-- Evaluates a complete emitted CSS expression string to its value. -/
def parseCssValue (s : String) : Option CssVal :=
  let ts := tokenize s
  match parseCss (4 * ts.length + 8) .expr ts with
  | some (v, []) => some v
  | _ => none

unseal Rat.mul Rat.add Rat.sub Rat.inv in
example : parseCssValue "calc((100px + 4px) * 1)" = some (.len 0 104) := by decide
unseal Rat.mul Rat.add Rat.sub Rat.inv in
example : parseCssValue "(100/3% - (4px * 2/3))" = some (.len (100/3) (-8/3)) := by decide
unseal Rat.mul Rat.add Rat.sub Rat.inv in
example : parseCssValue "0" = some (.num 0) := by decide
unseal Rat.mul Rat.add Rat.sub Rat.inv in
example : parseCssValue "(Infinity% - (4px * -Infinity))" = none := by decide

/-- Modelled from the spec: the reference length for the C5 scenario's
horizontal position, `calc((( (100%/3 - (4px * 2/3)) ) + 4px) * 2)`,
written in the evaluator's CSS-value arithmetic. -/
def specHorizontalReference : Option CssVal := do
  let colUnit ← CssVal.divv (.len 100 0) (.num 3)
  let share ← CssVal.divv (.num 2) (.num 3)
  let gutterShare ← CssVal.mulv (.len 0 4) share
  let base ← colUnit.subv gutterShare
  let shifted ← base.addv (.len 0 4)
  shifted.mulv (.num 2)

/-! ## Helper lemmas about applying style assignments -/

/-- Properties not assigned by `l` are untouched by `applyStyles l`. -/
theorem applyStyles_not_assigned (l : List (String × Option String)) (m : StyleMap)
    (p : String) (h : ∀ a ∈ l, a.1 ≠ p) : applyStyles l m p = m p := by
  induction l generalizing m with
  | nil => rfl
  | cons a t ih =>
      have h1 : a.1 ≠ p := h a (List.mem_cons_self a t)
      have h2 : ∀ x ∈ t, x.1 ≠ p := fun x hx => h x (List.mem_cons_of_mem a hx)
      show applyStyles t (applyStyle m a) p = m p
      rw [ih (applyStyle m a) h2]
      unfold applyStyle
      exact if_neg (fun hpa => h1 hpa.symm)

/-- For a property assigned somewhere in `l`, the result of
`applyStyles l` does not depend on the initial map. -/
theorem applyStyles_assigned (l : List (String × Option String)) (p : String)
    (h : ∃ a ∈ l, a.1 = p) (m m' : StyleMap) :
    applyStyles l m p = applyStyles l m' p := by
  induction l generalizing m m' with
  | nil => exact absurd h (by simp)
  | cons a t ih =>
      show applyStyles t (applyStyle m a) p = applyStyles t (applyStyle m' a) p
      by_cases ht : ∃ x ∈ t, x.1 = p
      · exact ih ht _ _
      · have hap : a.1 = p := by
          rcases h with ⟨x, hx, hxp⟩
          rcases List.mem_cons.mp hx with rfl | hxt
          · exact hxp
          · exact absurd ⟨x, hxt, hxp⟩ ht
        have hnt : ∀ x ∈ t, x.1 ≠ p := by
          intro x hx hc
          exact ht ⟨x, hx, hc⟩
        rw [applyStyles_not_assigned t _ p hnt, applyStyles_not_assigned t _ p hnt]
        unfold applyStyle
        rw [if_pos hap.symm, if_pos hap.symm]

/-- Applying the same assignment list twice is the same as applying it
once. -/
theorem applyStyles_idem (l : List (String × Option String)) (m : StyleMap) :
    applyStyles l (applyStyles l m) = applyStyles l m := by
  funext p
  by_cases h : ∃ a ∈ l, a.1 = p
  · exact applyStyles_assigned l p h _ _
  · push_neg at h
    rw [applyStyles_not_assigned l _ p h]

/-! ## Claim theorems -/

/-- Claim C1: creating a `FixedRowHeight` policy with a value failing the
CSS-length grammar check after unit normalization fails with
`InvalidDimension` at instantiation time (the validation runs in the
`init` phase of the two-phase construct-then-initialize lifecycle), for
every such malformed value; a passing value yields the initialized
policy.  `"100"` normalizes to `"100px"` and passes the check;
`"100!!"` fails. -/
theorem fixed_init_invalid_dimension :
    (∀ (v g : String) (tr : TileCoordinator) (c : ℚ) (d : String),
      cssCalcAllowedValue (normalizeUnits v) = false →
        ∃ msg, FixedTileStyler.init v g tr c d = .error msg) ∧
    (∀ (v g : String) (tr : TileCoordinator) (c : ℚ) (d : String),
      cssCalcAllowedValue (normalizeUnits v) = true →
        FixedTileStyler.init v g tr c d =
          .ok (TileStyler.init g tr c d, normalizeUnits v)) ∧
    normalizeUnits "100" = "100px" ∧
    cssCalcAllowedValue "100px" = true ∧
    (∃ msg, FixedTileStyler.init "100!!" "4px" ⟨2, 2⟩ 3 "ltr" = .error msg) := by
  refine ⟨?_, ?_, by decide, by decide, ⟨_, rfl⟩⟩
  · intro v g tr c d h
    exact ⟨"Invalid value \"" ++ normalizeUnits v ++ "\" set as rowHeight.",
      by simp [FixedTileStyler.init, h]⟩
  · intro v g tr c d h
    simp [FixedTileStyler.init, h]

/-- Witness for C1 at the concrete inputs `"100!!"` (malformed) and
`"100"` (well-formed). -/
theorem fixed_init_invalid_dimension_witness :
    (∃ msg, FixedTileStyler.init "100!!" "4px" ⟨2, 2⟩ 3 "ltr" = .error msg) ∧
    FixedTileStyler.init "100" "4px" ⟨2, 2⟩ 3 "ltr" =
      .ok (TileStyler.init "4px" ⟨2, 2⟩ 3 "ltr", normalizeUnits "100") :=
  ⟨fixed_init_invalid_dimension.1 "100!!" "4px" ⟨2, 2⟩ 3 "ltr" (by decide),
   fixed_init_invalid_dimension.2.1 "100" "4px" ⟨2, 2⟩ 3 "ltr" (by decide)⟩

unseal Rat.mul Rat.add Rat.sub Rat.inv in
/-- Claim C2 counterexample: `RatioTileStyler("1:x")` constructs
successfully (with a `NaN` ratio) even though `"x"` does not parse as a
finite number, so construction does not fail on every string whose two
parts are not both finite numbers — refuting the "if and only if" as
stated. -/
theorem ratio_parse_counterexample :
    RatioTileStyler._parseRatio "1:x" = .ok JsNum.nan ∧
    parseFloat "x" = JsNum.nan :=
  ⟨rfl, rfl⟩

/-- Claim C2 (amended): constructing `RatioTileStyler` fails with
`InvalidRatio` if and only if the ratio string does not split on `:`
into exactly two parts; the numeric content of the parts is not
validated.  In particular `RatioTileStyler("3:1:2")` fails. -/
theorem ratio_parse_error_iff_parts :
    (∀ v, (∃ msg, RatioTileStyler._parseRatio v = .error msg) ↔
        (jsSplit ':' v).length ≠ 2) ∧
    (∃ msg, RatioTileStyler._parseRatio "3:1:2" = .error msg) := by
  constructor
  · intro v
    unfold RatioTileStyler._parseRatio
    by_cases h : (jsSplit ':' v).length = 2 <;> simp [h]
  · exact ⟨_, rfl⟩

/-- Claim C3: for each policy, `reset` on a container with zero
registered tiles does not throw, clears exactly the policy's
container-level property (`height` for fixed, `paddingBottom` for ratio,
nothing for fit, which sets no container-level property), and applying
the assignments of any successful reset is idempotent. -/
theorem reset_zero_tiles :
    (∀ b v, Styler.reset (.fixed b v) ⟨some []⟩ = .ok ⟨[("height", none)], []⟩) ∧
    (∀ b r bth, Styler.reset (.ratio b r bth) ⟨some []⟩ =
        .ok ⟨[("paddingBottom", none)], []⟩) ∧
    (∀ b, Styler.reset (.fit b) ⟨some []⟩ = .ok ⟨[], []⟩) ∧
    (∀ (st : Styler) (t : TileStyleTarget) (eff : ResetEffects),
      st.reset t = .ok eff →
        (∀ m : StyleMap,
          applyStyles eff.listStyles (applyStyles eff.listStyles m) =
            applyStyles eff.listStyles m) ∧
        (∀ l ∈ eff.tileStyles, ∀ m : StyleMap,
          applyStyles l (applyStyles l m) = applyStyles l m)) := by
  refine ⟨fun b v => rfl, fun b r bth => rfl, fun b => rfl, ?_⟩
  intro st t eff _
  exact ⟨fun m => applyStyles_idem _ _, fun l _ m => applyStyles_idem _ _⟩

/-- Witness for C3: the fixed policy's reset on an empty container, and
idempotence of its effects on a concrete style map. -/
theorem reset_zero_tiles_witness :
    Styler.reset (.fixed ⟨"4px", 2, 2, 3, "ltr"⟩ "100px") ⟨some []⟩ =
      .ok ⟨[("height", none)], []⟩ ∧
    applyStyles [("height", none)]
        (applyStyles [("height", none)] (fun _ => some "10px")) =
      applyStyles [("height", none)] (fun _ => some "10px") :=
  ⟨reset_zero_tiles.1 ⟨"4px", 2, 2, 3, "ltr"⟩ "100px",
   (reset_zero_tiles.2.2.2 (.fixed ⟨"4px", 2, 2, 3, "ltr"⟩ "100px") ⟨some []⟩
      ⟨[("height", none)], []⟩ rfl).1 (fun _ => some "10px")⟩

unseal Rat.mul Rat.add Rat.sub Rat.inv in
/-- Claim C4: with `rowCount == 0` and `totalRowSpan == 0`, the
`FitToContainer` row styler never throws: `100 / this._rowspan` and
`(this._rows - 1) / this._rows` go through as the JavaScript infinities,
which are interpolated into the emitted styles, and on the concrete
4px-gutter configuration the emitted `top`/`height` values are invalid
CSS expressions (they evaluate to no value). -/
theorem fit_zero_rowcount_invalid_css :
    (∀ (g d : String) (cols : ℚ) (tile : Tile) (rowIndex : ℚ),
      FitTileStyler.setRowStyles (TileStyler.init g ⟨0, 0⟩ cols d) tile rowIndex =
        (let s := TileStyler.init g ⟨0, 0⟩ cols d
         let base := s.getBaseTileSize JsNum.posInf JsNum.negInf
         [("top", s.getTilePosition base rowIndex),
          ("height", «calc» (s.getTileSize base tile.rowspan))])) ∧
    FitTileStyler.setRowStyles (TileStyler.init "4px" ⟨0, 0⟩ 3 "ltr") ⟨1, 1⟩ 1 =
      [("top", "calc(((Infinity% - (4px * -Infinity)) + 4px) * 1)"),
       ("height", "calc(((Infinity% - (4px * -Infinity)) * 1) + (0 * 4px))")] ∧
    parseCssValue "calc(((Infinity% - (4px * -Infinity)) + 4px) * 1)" = none ∧
    parseCssValue "calc(((Infinity% - (4px * -Infinity)) * 1) + (0 * 4px))" = none := by
  refine ⟨?_, by decide, by decide, by decide⟩
  intro g d cols tile rowIndex
  have h100 : (JsNum.num 100).div (.num 0) = JsNum.posInf := by
    simp [JsNum.div]
  have hneg : (JsNum.num ((0 : ℚ) - 1)).div (.num 0) = JsNum.negInf := by
    norm_num [JsNum.div]
  simp only [FitTileStyler.setRowStyles, TileStyler.init, h100, hneg]

unseal Rat.mul Rat.add Rat.sub Rat.inv in
/-- Claim C5: in the 3-column, 4px-gutter, fixed-100px scenario with a
1x1 tile at `rowIndex = 1`, `columnIndex = 2`, the emitted horizontal
position evaluates to the same length as the spec's reference expression
`calc((( (100%/3 - (4px * 2/3)) ) + 4px) * 2)` (at every container width
`W`), the emitted vertical position is the string
`calc((100px + 4px) * 1)`, and the emitted vertical extent evaluates to
exactly `100px`. -/
theorem fixed_scenario_positions :
    Styler.initFixed "100px" "4px" ⟨2, 2⟩ 3 "ltr" =
      .ok (.fixed ⟨"4px", 2, 2, 3, "ltr"⟩ "100px") ∧
    ((Styler.fixed ⟨"4px", 2, 2, 3, "ltr"⟩ "100px").setStyle ⟨1, 1⟩ 1 2).2 =
      [("left", "calc(((100/3% - (4px * 2/3)) + 4px) * 2)"),
       ("width", "calc(((100/3% - (4px * 2/3)) * 1) + (0 * 4px))"),
       ("top", "calc((100px + 4px) * 1)"),
       ("height", "calc((100px * 1) + (0 * 4px))")] ∧
    (∃ v, parseCssValue "calc(((100/3% - (4px * 2/3)) + 4px) * 2)" = some v ∧
      specHorizontalReference = some v ∧
      ∀ W : ℚ, v.lengthAt W = some ((200 / 3) / 100 * W + 8 / 3)) ∧
    parseCssValue "calc((100px * 1) + (0 * 4px))" = some (.len 0 100) := by
  refine ⟨rfl, by decide, ⟨.len (200 / 3) (8 / 3), by decide, by decide, ?_⟩, by decide⟩
  intro W
  rfl

/-- Claim C6: the per-cell gutter fraction computed by `setStyle` is
`(columnCount - 1) / columnCount` for every `columnCount >= 1` (exactly
`0` at `columnCount == 1`), and summed over one full row of
`columnCount` cells it accounts for exactly `columnCount - 1` gutter
widths. -/
theorem gutter_fraction_row_sum :
    (∀ n : ℕ, 1 ≤ n →
      TileStyler.gutterWidthFractionPerTile (n : ℚ) =
        .num (((n : ℚ) - 1) / (n : ℚ)) ∧
      Finset.sum (Finset.range n) (fun _ => ((n : ℚ) - 1) / (n : ℚ)) =
        (n : ℚ) - 1) ∧
    TileStyler.gutterWidthFractionPerTile (1 : ℚ) = .num 0 := by
  constructor
  · intro n hn
    have hz : (n : ℚ) ≠ 0 := Nat.cast_ne_zero.mpr (by omega)
    constructor
    · simp [TileStyler.gutterWidthFractionPerTile, JsNum.div, hz]
    · rw [Finset.sum_const, Finset.card_range, nsmul_eq_mul]
      field_simp
  · have : ((1 : ℚ) - 1) / (1 : ℚ) = 0 := by norm_num
    simp [TileStyler.gutterWidthFractionPerTile, JsNum.div, this]

/-- Witness for C6 at `columnCount = 3`: the fraction is `2/3` and three
cells account for two gutters. -/
theorem gutter_fraction_row_sum_witness :
    TileStyler.gutterWidthFractionPerTile ((3 : ℕ) : ℚ) =
      .num ((((3 : ℕ) : ℚ) - 1) / ((3 : ℕ) : ℚ)) ∧
    Finset.sum (Finset.range 3) (fun _ => (((3 : ℕ) : ℚ) - 1) / ((3 : ℕ) : ℚ)) =
      ((3 : ℕ) : ℚ) - 1 :=
  gutter_fraction_row_sum.1 3 (by norm_num)

/-- Claim C7: for every styler state, base size string and offset,
`getTilePosition` returns the string `'0'` at `offset == 0` and
otherwise `calc((baseSize + gutterSize) * offset)`. -/
theorem tile_position_zero_and_calc :
    (∀ (s : TileStyler) (base : String), s.getTilePosition base 0 = "0") ∧
    (∀ (s : TileStyler) (base : String) (offset : ℚ), offset ≠ 0 →
      s.getTilePosition base offset =
        «calc» ("(" ++ base ++ " + " ++ s._gutterSize ++ ") * " ++
          jsNumToString (.num offset))) := by
  constructor
  · intro s base
    simp [TileStyler.getTilePosition]
  · intro s base offset h
    simp [TileStyler.getTilePosition, h]

/-- Witness for C7 at a concrete styler state and `offset = 2`. -/
theorem tile_position_zero_and_calc_witness :
    TileStyler.getTilePosition ⟨"4px", 2, 2, 3, "ltr"⟩ "100px" 2 =
      «calc» ("(" ++ "100px" ++ " + " ++
        (⟨"4px", 2, 2, 3, "ltr"⟩ : TileStyler)._gutterSize ++ ") * " ++
        jsNumToString (.num 2)) :=
  tile_position_zero_and_calc.2 ⟨"4px", 2, 2, 3, "ltr"⟩ "100px" 2 (by norm_num)

unseal Rat.mul Rat.add Rat.sub Rat.inv in
/-- Claim C8: `getTileSize` always emits
`(baseSize * span) + ((span - 1) * gutterSize)`; semantically, for a
span of `1` the `span - 1` gutter term vanishes, so the value is the
base length alone — checked both on the CSS-value arithmetic for every
base and gutter length and end-to-end on a concrete emitted string. -/
theorem tile_size_span_formula :
    (∀ (s : TileStyler) (base : String) (span : ℚ),
      s.getTileSize base span =
        "(" ++ base ++ " * " ++ jsNumToString (.num span) ++ ") + (" ++
          jsNumToString (.num (span - 1)) ++ " * " ++ s._gutterSize ++ ")") ∧
    (∀ pct px gpct gpx : ℚ,
      (do
        let a ← (CssVal.len pct px).mulv (.num 1)
        let b ← (CssVal.num 0).mulv (.len gpct gpx)
        a.addv b) = some (.len pct px)) ∧
    TileStyler.getTileSize ⟨"4px", 2, 2, 3, "ltr"⟩ "100px" 1 =
      "(100px * 1) + (0 * 4px)" ∧
    parseCssValue "(100px * 1) + (0 * 4px)" = some (.len 0 100) := by
  refine ⟨fun s base span => rfl, ?_, by decide, by decide⟩
  intro pct px gpct gpx
  simp [CssVal.mulv, CssVal.addv]

unseal Rat.mul Rat.add Rat.sub Rat.inv in
/-- Claim C9: constructing `RatioTileStyler("3:1")` parses the ratio to
`3`, and the row-sizing computation at `percentWidthPerColumn = 30`
yields a percent-height-per-row of exactly `10` before the gutter
adjustment, which flows into the emitted base height `(10% - ...)`. -/
theorem ratio_row_sizing_round_trip :
    RatioTileStyler._parseRatio "3:1" = .ok (.num 3) ∧
    RatioTileStyler.percentHeightPerTile (.num 30) (.num 3) = .num 10 ∧
    (RatioTileStyler.setRowStyles ⟨"4px", 2, 2, 3, "ltr"⟩ (.num 3) ⟨1, 1⟩ 1
        (.num 30) (.num (2 / 3))).1 = "(10% - (4px * 2/3))" := by
  refine ⟨rfl, by decide, by decide⟩

unseal Rat.mul Rat.add Rat.sub Rat.inv in
/-- Claim C10: calling `RatioTileStyler.getComputedHeight` after `init`
but before any `setRowStyles` call does not fail: for every initialized
state with the `baseTileHeight` field still unset, it returns a
`('paddingBottom', value)` pair whose value interpolates the unset base
height as the literal text `undefined`; concretely, after
`initRatio "3:1"` the emitted value is
`calc(2 * (undefined * 1) + (0 * 4px) + 4px * (2 - 1))`. -/
theorem ratio_computed_height_undefined :
    (∀ (g d : String) (rows rowspan cols : ℚ) (r : JsNum),
      (Styler.ratio ⟨g, rows, rowspan, cols, d⟩ r none).getComputedHeight =
        some ("paddingBottom",
          «calc» ((⟨g, rows, rowspan, cols, d⟩ : TileStyler).getTileSpan "undefined" ++
            " + " ++ (⟨g, rows, rowspan, cols, d⟩ : TileStyler).getGutterSpan))) ∧
    Styler.initRatio "3:1" "4px" ⟨2, 2⟩ 3 "ltr" =
      .ok (.ratio ⟨"4px", 2, 2, 3, "ltr"⟩ (.num 3) none) ∧
    (Styler.ratio ⟨"4px", 2, 2, 3, "ltr"⟩ (.num 3) none).getComputedHeight =
      some ("paddingBottom", "calc(2 * (undefined * 1) + (0 * 4px) + 4px * (2 - 1))") ∧
    (∃ a b : String,
      "calc(2 * (undefined * 1) + (0 * 4px) + 4px * (2 - 1))" =
        a ++ "undefined" ++ b) := by
  refine ⟨fun g d rows rowspan cols r => rfl, rfl, by decide,
    ⟨"calc(2 * (", " * 1) + (0 * 4px) + 4px * (2 - 1))", by decide⟩⟩
